import Mathlib

/-!
Shallow embedding of the CPU feature-detection code of the `cpufeatures`
repository, and proofs about it.

The repository has three detection implementations plus a raw cpuid
dynamic-library surface:

* the cross-platform decoder `_intel_cpu_features` (the libsodium-derived
  variant), modelled here as `intelCpuFeatures`;
* the Microsoft-specific `InstructionSet` class whose constructor
  `InstructionSet_Internal` snapshots the cpuid pages, modelled as
  `instructionSetInternal`;
* the `CPUFeaturesLibrary` helper `CheckFeature` with its `SupportXXX`
  wrappers, modelled as `CheckFeature`, `SupportAVX2`, `SupportAES`,
  `SupportVMX`;
* the `cpuid.dll` exports `cpuid`/`cpuidex`, modelled as `cpuidFn` and
  `cpuidexFn`.

The hardware `cpuid` instruction and the `xgetbv` read are stubbed: a
`Machine` (or a raw stub function) supplies the four result registers for
every selector.  Machine registers are 32-bit; every value read from a
stub is reduced modulo 2^32 at the point where the C code stores it into a
32-bit location.  Call traces (the list of selectors actually passed to
the identification instruction) are returned alongside the results so that
"the invoker is never called at selector s" is expressible.
-/

/-- The four 32-bit registers {EAX, EBX, ECX, EDX} returned by one
identification query (`RegisterQuad` of the spec). -/
structure RegisterQuad where
  a : Nat
  b : Nat
  c : Nat
  d : Nat
  deriving Repr, DecidableEq

instance : Inhabited RegisterQuad := ⟨⟨0, 0, 0, 0⟩⟩

/-- Indexing `cpu_info[i]` for the C array {EAX, EBX, ECX, EDX};
out-of-range indices (undefined behaviour in C) are modelled as 0. -/
def RegisterQuad.get (q : RegisterQuad) (i : Nat) : Nat :=
  if i = 0 then q.a else if i = 1 then q.b else if i = 2 then q.c
  else if i = 3 then q.d else 0

/-- Reduce each register to its 32-bit value, as happens when the raw
result is stored into the `unsigned int cpu_info[4]` / `int cpu_info[4]`
buffers. -/
def RegisterQuad.reduce (q : RegisterQuad) : RegisterQuad :=
  ⟨q.a % 2 ^ 32, q.b % 2 ^ 32, q.c % 2 ^ 32, q.d % 2 ^ 32⟩

/-- Reinterpret a 32-bit pattern as a signed `int` (two's complement), as
the C code does when it stores a register into an `int` variable. -/
def toSigned (x : Nat) : Int :=
  if x < 2 ^ 31 then (x : Int) else (x : Int) - 2 ^ 32

/-- A stubbed machine for the cross-platform decoder: `cpuid` is the
identification instruction (`_cpuid`, one function selector, sub-selector
implicitly 0) and `xgetbv` the extended-control-register read
(`_xgetbv`). -/
structure Machine where
  cpuid : Nat → RegisterQuad
  xgetbv : Nat → Nat

/-- Read one cpuid page on a stubbed machine into the 32-bit buffer. -/
def Machine.read (m : Machine) (selector : Nat) : RegisterQuad :=
  (m.cpuid selector).reduce

/-- The `CPUFeatures` struct of the cross-platform variant. -/
structure CPUFeatures where
  has_neon : Bool
  has_sse2 : Bool
  has_sse3 : Bool
  has_ssse3 : Bool
  has_sse41 : Bool
  has_avx : Bool
  has_avx2 : Bool
  has_avx512f : Bool
  has_pclmul : Bool
  has_aesni : Bool
  has_rdrand : Bool
  deriving Repr, DecidableEq

/-- Result of running `_intel_cpu_features`: the feature struct after the
call (fields the code did not assign keep their previous, possibly
indeterminate, values), the C return value, and the list of selectors
passed to the identification instruction, in call order. -/
structure IntelResult where
  feats : CPUFeatures
  ret : Int
  calls : List Nat
  deriving Repr, DecidableEq

/-- Bit masks from the cross-platform source. -/
def CPUID_EBX_AVX2 : Nat := 0x00000020

def CPUID_ECX_SSE3 : Nat := 0x00000001

def CPUID_ECX_PCLMUL : Nat := 0x00000002

def CPUID_ECX_SSSE3 : Nat := 0x00000200

def CPUID_ECX_SSE41 : Nat := 0x00080000

def CPUID_ECX_AESNI : Nat := 0x02000000

def CPUID_ECX_XSAVE : Nat := 0x04000000

def CPUID_ECX_OSXSAVE : Nat := 0x08000000

def CPUID_ECX_AVX : Nat := 0x10000000

def CPUID_ECX_RDRAND : Nat := 0x40000000

def CPUID_EDX_SSE2 : Nat := 0x04000000

def XCR0_SSE : Nat := 0x00000002

def XCR0_AVX : Nat := 0x00000004

/-- `_intel_cpu_features`, modelled for the build the repository ships
(MSVC, `_MSC_VER >= 1700`): `HAVE_EMMINTRIN_H`, `HAVE_PMMINTRIN_H`,
`HAVE_TMMINTRIN_H`, `HAVE_SMMINTRIN_H`, `HAVE_AVXINTRIN_H`,
`HAVE_WMMINTRIN_H`, `HAVE_AVX2INTRIN_H` and `HAVE_RDRAND` are defined,
the `_xgetbv` intrinsic is used for the extended-control-register read,
and `HAVE_AVX512FINTRIN_H` is never defined anywhere in the sources, so
the AVX-512 block is compiled out and `has_avx512f` is always assigned 0.
`pre` is the state of the caller's `CPUFeatures` struct before the call
(an uninitialized local in `print_cpu_features`). -/
def intelCpuFeatures (m : Machine) (pre : CPUFeatures) : IntelResult :=
  let info0 := m.read 0
  if info0.a = 0 then
    ⟨pre, -1, [0]⟩
  else
    let info := m.read 1
    let f1 : CPUFeatures :=
      { pre with
        has_sse2 := info.d &&& CPUID_EDX_SSE2 != 0
        has_sse3 := info.c &&& CPUID_ECX_SSE3 != 0
        has_ssse3 := info.c &&& CPUID_ECX_SSSE3 != 0
        has_sse41 := info.c &&& CPUID_ECX_SSE41 != 0 }
    let avxMask := CPUID_ECX_AVX ||| CPUID_ECX_XSAVE ||| CPUID_ECX_OSXSAVE
    let has_avx : Bool :=
      if info.c &&& avxMask == avxMask then
        let xcr0 := m.xgetbv 0 % 2 ^ 32
        xcr0 &&& (XCR0_SSE ||| XCR0_AVX) == XCR0_SSE ||| XCR0_AVX
      else
        false
    let f2 := { f1 with has_avx := has_avx }
    let step7 : CPUFeatures × List Nat :=
      if f2.has_avx then
        let info7 := m.read 7
        ({ f2 with has_avx2 := info7.b &&& CPUID_EBX_AVX2 != 0 }, [7])
      else
        ({ f2 with has_avx2 := false }, [])
    let f3 := step7.1
    let f4 :=
      { f3 with
        has_avx512f := false
        has_pclmul := info.c &&& CPUID_ECX_PCLMUL != 0
        has_aesni := info.c &&& CPUID_ECX_AESNI != 0
        has_rdrand := info.c &&& CPUID_ECX_RDRAND != 0 }
    ⟨f4, 0, [0, 1] ++ step7.2⟩

/-- `_arm_cpu_features` on a non-ARM build: sets `has_neon` to 0 and
returns -1. -/
def armCpuFeatures (pre : CPUFeatures) : CPUFeatures × Int :=
  ({ pre with has_neon := false }, -1)

/-- `_get_cpu_features`: runs the ARM check then the Intel check,
and-accumulating the return codes into `ret` (initially -1). -/
def getCpuFeatures (m : Machine) (pre : CPUFeatures) : IntelResult :=
  let armRes := armCpuFeatures pre
  let intelRes := intelCpuFeatures m armRes.1
  ⟨intelRes.feats, Int.land (Int.land (-1) armRes.2) intelRes.ret,
    intelRes.calls⟩

/-- The four little-endian bytes of a 32-bit word, in memory order, as
written by `*reinterpret_cast<int*>(buf) = w`. -/
def bytesLE (w : Nat) : List Nat :=
  [w % 2 ^ 8, w / 2 ^ 8 % 2 ^ 8, w / 2 ^ 16 % 2 ^ 8, w / 2 ^ 24 % 2 ^ 8]

/-- Reading a zero-padded byte buffer back as a C string (`std::string`
construction from a `char*` stops at the first NUL byte). -/
def cString (bs : List Nat) : String :=
  String.mk ((bs.takeWhile (· != 0)).map Char.ofNat)

/-- The 16 bytes of one register quad in memory order, as captured by
`memcpy(dst, cpui.data(), sizeof(cpui))`. -/
def quadBytes (q : RegisterQuad) : List Nat :=
  bytesLE q.a ++ bytesLE q.b ++ bytesLE q.c ++ bytesLE q.d

/-- The member state of `InstructionSet::InstructionSet_Internal`.
`nIds` and `nExIds` are the C `int` values; `nExIdsU` is the raw 32-bit
pattern of register A of the extended base query (the value the C code
compares against the unsigned literals `0x80000001`/`0x80000004`). -/
structure ISState where
  nIds : Int
  nExIds : Int
  nExIdsU : Nat
  vendor : String
  brand : String
  isIntel : Bool
  isAMD : Bool
  f1ecx : Nat
  f1edx : Nat
  f7ebx : Nat
  f7ecx : Nat
  f81ecx : Nat
  f81edx : Nat
  data : List RegisterQuad
  extdata : List RegisterQuad

/-- The constructor `InstructionSet_Internal::InstructionSet_Internal()`,
over a stubbed `__cpuid`/`__cpuidex` (`stub selector subselector`, the
selector being the 32-bit pattern the instruction receives).  The
standard loop `for (int i = 0; i <= nIds_; ++i)` pushes one quad per
selector `0..nIds_`; the extended loop `for (int i = 0x80000000; i <=
nExIds_; ++i)` starts at INT_MIN (the `int` value of the pattern
0x80000000) and runs `nExIds_ + 2^31 + 1` times, querying patterns
`0x80000000 + j`.  Out-of-range `data_[k]` accesses (undefined behaviour
in C++ when the processor reports fewer selectors) are modelled as the
zero quad. -/
def instructionSetInternal (stub : Nat → Nat → RegisterQuad) : ISState :=
  let cpui0 := (stub 0 0).reduce
  let nIds : Int := toSigned cpui0.a
  let data : List RegisterQuad :=
    (List.range (nIds + 1).toNat).map fun i => (stub i 0).reduce
  let d0 := data.getD 0 default
  let vendor := cString (bytesLE d0.b ++ bytesLE d0.d ++ bytesLE d0.c)
  let isIntel := vendor == "GenuineIntel"
  let isAMD := !isIntel && (vendor == "AuthenticAMD")
  let f1ecx := if 1 ≤ nIds then (data.getD 1 default).c else 0
  let f1edx := if 1 ≤ nIds then (data.getD 1 default).d else 0
  let f7ebx := if 7 ≤ nIds then (data.getD 7 default).b else 0
  let f7ecx := if 7 ≤ nIds then (data.getD 7 default).c else 0
  let ext0 := (stub 0x80000000 0).reduce
  let nExIdsU := ext0.a
  let nExIds : Int := toSigned nExIdsU
  let extdata : List RegisterQuad :=
    (List.range (nExIds + 2 ^ 31 + 1).toNat).map fun j =>
      (stub ((2 ^ 31 + j) % 2 ^ 32) 0).reduce
  let f81ecx := if 0x80000001 ≤ nExIdsU then (extdata.getD 1 default).c else 0
  let f81edx := if 0x80000001 ≤ nExIdsU then (extdata.getD 1 default).d else 0
  let brand :=
    if 0x80000004 ≤ nExIdsU then
      cString (quadBytes (extdata.getD 2 default) ++
        quadBytes (extdata.getD 3 default) ++ quadBytes (extdata.getD 4 default))
    else
      ""
  ⟨nIds, nExIds, nExIdsU, vendor, brand, isIntel, isAMD,
    f1ecx, f1edx, f7ebx, f7ecx, f81ecx, f81edx, data, extdata⟩

/-- `InstructionSet::Vendor()`. -/
def InstructionSet.Vendor (s : ISState) : String := s.vendor

/-- `InstructionSet::HLE()`: Intel-gated, leaf 7 EBX bit 4. -/
def InstructionSet.HLE (s : ISState) : Bool := s.isIntel && s.f7ebx.testBit 4

/-- `InstructionSet::AVX2()`: leaf 7 EBX bit 5. -/
def InstructionSet.AVX2 (s : ISState) : Bool := s.f7ebx.testBit 5

/-- `InstructionSet::RTM()`: Intel-gated, leaf 7 EBX bit 11. -/
def InstructionSet.RTM (s : ISState) : Bool := s.isIntel && s.f7ebx.testBit 11

/-- `InstructionSet::LAHF()`: leaf 0x80000001 ECX bit 0. -/
def InstructionSet.LAHF (s : ISState) : Bool := s.f81ecx.testBit 0

/-- `InstructionSet::LZCNT()`: Intel-gated, leaf 0x80000001 ECX bit 5. -/
def InstructionSet.LZCNT (s : ISState) : Bool := s.isIntel && s.f81ecx.testBit 5

/-- `InstructionSet::ABM()`: AMD-gated, leaf 0x80000001 ECX bit 5. -/
def InstructionSet.ABM (s : ISState) : Bool := s.isAMD && s.f81ecx.testBit 5

/-- `InstructionSet::SSE4a()`: AMD-gated, leaf 0x80000001 ECX bit 6. -/
def InstructionSet.SSE4a (s : ISState) : Bool := s.isAMD && s.f81ecx.testBit 6

/-- `InstructionSet::XOP()`: AMD-gated, leaf 0x80000001 ECX bit 11. -/
def InstructionSet.XOP (s : ISState) : Bool := s.isAMD && s.f81ecx.testBit 11

/-- `InstructionSet::TBM()`: AMD-gated, leaf 0x80000001 ECX bit 21. -/
def InstructionSet.TBM (s : ISState) : Bool := s.isAMD && s.f81ecx.testBit 21

/-- Result of one `CheckFeature` / `cpuid` / `cpuidex` call: the computed
support value and the list of selector patterns passed to the
identification instruction, in call order. -/
structure CheckResult where
  support : Bool
  calls : List Nat
  deriving Repr, DecidableEq

/-- `CheckFeature` of `CPUFeaturesLibrary.cpp`: positive function ids are
checked against register A of the selector-0 query, negative ones (the
`int` representation of extended selectors at and above 0x80000000)
against register A of the extended-base query; the signed comparison
`functionId <= cpu_info[0]` is performed on the `int` values.  When the
guard passes, the requested page is queried and the selected bit tested;
`functionId == 0` falls through both branches.  The function does not
bounds-check `registerNumber` (indices above 3 read out of bounds,
modelled as 0). -/
def CheckFeature (stub : Nat → Nat → RegisterQuad) (functionId : Int)
    (registerNumber bitNumber : Nat) : CheckResult :=
  if 0 < functionId then
    let info0 := (stub 0 0).reduce
    if functionId ≤ toSigned info0.a then
      let sel := functionId.toNat
      let info := (stub sel 0).reduce
      ⟨info.get registerNumber &&& (1 <<< bitNumber) != 0, [0, sel]⟩
    else
      ⟨false, [0]⟩
  else if functionId < 0 then
    let info0 := (stub 0x80000000 0).reduce
    if functionId ≤ toSigned info0.a then
      let sel := (functionId + 2 ^ 32).toNat % 2 ^ 32
      let info := (stub sel 0).reduce
      ⟨info.get registerNumber &&& (1 <<< bitNumber) != 0, [0x80000000, sel]⟩
    else
      ⟨false, [0x80000000]⟩
  else
    ⟨false, []⟩

/-- `SupportAVX2()` of the library: `CheckFeature(7, 1, 5)`. -/
def SupportAVX2 (stub : Nat → Nat → RegisterQuad) : Bool :=
  (CheckFeature stub 7 1 5).support

/-- `SupportAVX512()` of the library: `CheckFeature(7, 1, 16)`. -/
def SupportAVX512 (stub : Nat → Nat → RegisterQuad) : Bool :=
  (CheckFeature stub 7 1 16).support

/-- `SupportAES()` of the library: `CheckFeature(1, 2, 25)`. -/
def SupportAES (stub : Nat → Nat → RegisterQuad) : Bool :=
  (CheckFeature stub 1 2 25).support

/-- `SupportVMX()` of the library: the source passes `CheckFeature(1, 2,
25)` — bit 25 of ECX at selector 1, the AES position — although its own
comment says bit 5. -/
def SupportVMX (stub : Nat → Nat → RegisterQuad) : Bool :=
  (CheckFeature stub 1 2 25).support

/-- Result of the `cpuid.dll` exports: the `int` support value and the
selector patterns queried. -/
structure CpuidResult where
  support : Int
  calls : List Nat
  deriving Repr, DecidableEq

/-- The 32-bit pattern an `int` argument presents to the identification
instruction. -/
def selPattern (functionId : Int) : Nat :=
  ((functionId + 2 ^ 32).toNat) % 2 ^ 32

/-- `cpuidex` of `cpuid.cpp`: the guard admits strictly positive function
ids up to the cached standard maximum and negative ones (extended range)
up to the cached extended maximum; `function_id == 0` is admitted by
neither disjunct.  The register index is checked against 4 before
indexing; `support = cpu_info[register_number] & 1 << bit_number` is an
`int`. -/
def cpuidexFn (maxFunctionId maxExtendedFunctionId : Int)
    (stub : Nat → Nat → RegisterQuad) (functionId subfunctionId : Int)
    (registerNumber bitNumber : Nat) : CpuidResult :=
  if (0 < functionId ∧ functionId ≤ maxFunctionId) ∨
      (functionId < 0 ∧ functionId ≤ maxExtendedFunctionId) then
    if registerNumber < 4 then
      let info := (stub (selPattern functionId) (selPattern subfunctionId)).reduce
      ⟨toSigned (info.get registerNumber &&& ((1 <<< bitNumber) % 2 ^ 32)),
        [selPattern functionId]⟩
    else
      ⟨0, []⟩
  else
    ⟨0, []⟩

/-- `cpuid` of `cpuid.cpp`: same as `cpuidex` but querying through
`__cpuid`, which uses sub-selector 0. -/
def cpuidFn (maxFunctionId maxExtendedFunctionId : Int)
    (stub : Nat → Nat → RegisterQuad) (functionId : Int)
    (registerNumber bitNumber : Nat) : CpuidResult :=
  if (0 < functionId ∧ functionId ≤ maxFunctionId) ∨
      (functionId < 0 ∧ functionId ≤ maxExtendedFunctionId) then
    if registerNumber < 4 then
      let info := (stub (selPattern functionId) 0).reduce
      ⟨toSigned (info.get registerNumber &&& ((1 <<< bitNumber) % 2 ^ 32)),
        [selPattern functionId]⟩
    else
      ⟨0, []⟩
  else
    ⟨0, []⟩

/-- A single-bit mask test `x & (1 << i) != 0` is the test of bit `i`. -/
theorem bne_land_two_pow (x i : Nat) : (x &&& 2 ^ i != 0) = x.testBit i := by
  rw [Nat.and_two_pow]
  cases h : x.testBit i <;> simp [h]

/-- `(x % 2^32)` keeps every bit below 32. -/
theorem testBit_mod32 (x i : Nat) (h : i < 32) :
    (x % 2 ^ 32).testBit i = x.testBit i := by
  rw [Nat.testBit_mod_two_pow]
  simp [h]

/-- `c & M == M` says every bit of the mask `M` is set in `c`. -/
theorem land_eq_self_iff (c M : Nat) :
    c &&& M = M ↔ ∀ t, M.testBit t = true → c.testBit t = true := by
  constructor
  · intro h t ht
    have h2 := congrArg (fun x => Nat.testBit x t) h
    simp only [Nat.testBit_land, ht, Bool.and_true] at h2
    exact h2
  · intro h
    apply Nat.eq_of_testBit_eq
    intro t
    rw [Nat.testBit_land]
    cases ht : M.testBit t
    · simp
    · simp [h t ht]

/-- The bits of a power of two. -/
theorem testBit_two_pow_iff (n m : Nat) : (2 ^ n).testBit m = true ↔ n = m := by
  constructor
  · intro h
    by_contra hne
    rw [Nat.testBit_two_pow_of_ne hne] at h
    exact Bool.noConfusion h
  · rintro rfl
    exact Nat.testBit_two_pow_self

/-- Three-bit mask test, bit by bit. -/
theorem land_mask3 (c i j k : Nat) :
    c &&& (2 ^ i ||| 2 ^ j ||| 2 ^ k) = 2 ^ i ||| 2 ^ j ||| 2 ^ k ↔
      c.testBit i = true ∧ c.testBit j = true ∧ c.testBit k = true := by
  rw [land_eq_self_iff]
  constructor
  · intro h
    refine ⟨h i ?_, h j ?_, h k ?_⟩ <;>
      simp [Nat.testBit_lor, Nat.testBit_two_pow_self]
  · rintro ⟨h1, h2, h3⟩ t ht
    simp only [Nat.testBit_lor, Bool.or_eq_true, testBit_two_pow_iff] at ht
    rcases ht with (rfl | rfl) | rfl <;> assumption

/-- Two-bit mask test, bit by bit. -/
theorem land_mask2 (c i j : Nat) :
    c &&& (2 ^ i ||| 2 ^ j) = 2 ^ i ||| 2 ^ j ↔
      c.testBit i = true ∧ c.testBit j = true := by
  rw [land_eq_self_iff]
  constructor
  · intro h
    refine ⟨h i ?_, h j ?_⟩ <;>
      simp [Nat.testBit_lor, Nat.testBit_two_pow_self]
  · rintro ⟨h1, h2⟩ t ht
    simp only [Nat.testBit_lor, Bool.or_eq_true, testBit_two_pow_iff] at ht
    rcases ht with rfl | rfl <;> assumption

/-- C4: the library's VMX detection reads selector 1, register C (ECX),
bit 25 — the AES position — rather than the documented VMX bit 5, so for
every processor state `SupportVMX()` returns the same value as
`SupportAES()`. -/
theorem supportVMX_eq_supportAES (stub : Nat → Nat → RegisterQuad) :
    SupportVMX stub = SupportAES stub := rfl

/-- C9: the exported `cpuid` and `cpuidex` return 0 for `function_id = 0`
(and never query the instruction), for every cached maximum, every stub,
and every register and bit number: the strictly-positive guard excludes
selector 0. -/
theorem cpuid_zero_function_id (maxF maxE : Int)
    (stub : Nat → Nat → RegisterQuad) (sub : Int) (reg bit : Nat) :
    (cpuidFn maxF maxE stub 0 reg bit).support = 0 ∧
      (cpuidFn maxF maxE stub 0 reg bit).calls = [] ∧
      (cpuidexFn maxF maxE stub 0 sub reg bit).support = 0 ∧
      (cpuidexFn maxF maxE stub 0 sub reg bit).calls = [] := by
  refine ⟨?_, ?_, ?_, ?_⟩ <;> simp [cpuidFn, cpuidexFn]

/-- C10: for every `register_number ≥ 4` the exported `cpuid` and
`cpuidex` return 0 without querying the instruction: the register index
is bounds-checked against the 4-element quad before indexing. -/
theorem cpuid_register_bound (maxF maxE : Int)
    (stub : Nat → Nat → RegisterQuad) (fid sub : Int) (reg bit : Nat)
    (h : 4 ≤ reg) :
    (cpuidFn maxF maxE stub fid reg bit).support = 0 ∧
      (cpuidFn maxF maxE stub fid reg bit).calls = [] ∧
      (cpuidexFn maxF maxE stub fid sub reg bit).support = 0 ∧
      (cpuidexFn maxF maxE stub fid sub reg bit).calls = [] := by
  have h4 : ¬reg < 4 := by omega
  unfold cpuidFn cpuidexFn
  refine ⟨?_, ?_, ?_, ?_⟩ <;> (split <;> simp [h4])

/-- Witness for C10 at a concrete input. -/
theorem cpuid_register_bound_witness :
    4 ≤ 4 ∧
      (cpuidFn 1 (-1) (fun _ _ => ⟨0, 0, 0, 0⟩) 1 4 0).support = 0 ∧
      (cpuidFn 1 (-1) (fun _ _ => ⟨0, 0, 0, 0⟩) 1 4 0).calls = [] ∧
      (cpuidexFn 1 (-1) (fun _ _ => ⟨0, 0, 0, 0⟩) 1 0 4 0).support = 0 ∧
      (cpuidexFn 1 (-1) (fun _ _ => ⟨0, 0, 0, 0⟩) 1 0 4 0).calls = [] :=
  ⟨by decide,
    cpuid_register_bound 1 (-1) (fun _ _ => ⟨0, 0, 0, 0⟩) 1 0 4 0 (by decide)⟩


/-- Two booleans agree when they hold together. -/
theorem bool_eq_of_iff {a b : Bool} (h : a = true ↔ b = true) : a = b := by
  cases a <;> cases b <;> simp_all

/-- The AVX-usable condition of the cross-platform decoder, bit by bit:
leaf-1 ECX bits 28 (AVX), 26 (XSAVE), 27 (OSXSAVE) all set, and XCR0 bits
1 (SSE state) and 2 (AVX state) all set. -/
def avxUsable (m : Machine) : Bool :=
  ((m.cpuid 1).c.testBit 28 && (m.cpuid 1).c.testBit 26 &&
    (m.cpuid 1).c.testBit 27) &&
  ((m.xgetbv 0).testBit 1 && (m.xgetbv 0).testBit 2)

theorem ite_bool_and (a b : Bool) : (if a = true then b else false) = (a && b) := by
  cases a <;> simp

theorem bne_land_const (x M i : Nat) (hM : M = 2 ^ i) (hi : i < 32) :
    (x % 2 ^ 32 &&& M != 0) = x.testBit i := by
  rw [hM, bne_land_two_pow, testBit_mod32 _ _ hi]

/-- The decoder's three-bit AVX|XSAVE|OSXSAVE mask test, as bits. -/
theorem mask3_eval (m : Machine) :
    ((m.cpuid 1).c % 2 ^ 32 &&& (CPUID_ECX_AVX ||| CPUID_ECX_XSAVE ||| CPUID_ECX_OSXSAVE) ==
      CPUID_ECX_AVX ||| CPUID_ECX_XSAVE ||| CPUID_ECX_OSXSAVE) =
    ((m.cpuid 1).c.testBit 28 && (m.cpuid 1).c.testBit 26 && (m.cpuid 1).c.testBit 27) := by
  have hm3 : CPUID_ECX_AVX ||| CPUID_ECX_XSAVE ||| CPUID_ECX_OSXSAVE =
      2 ^ 28 ||| 2 ^ 26 ||| 2 ^ 27 := by decide
  rw [hm3]
  apply bool_eq_of_iff
  rw [beq_iff_eq, land_mask3, testBit_mod32 _ 28 (by norm_num),
    testBit_mod32 _ 26 (by norm_num), testBit_mod32 _ 27 (by norm_num)]
  simp [and_assoc]

/-- The decoder's two-bit XCR0 mask test, as bits. -/
theorem mask2_eval (m : Machine) :
    (m.xgetbv 0 % 2 ^ 32 &&& (XCR0_SSE ||| XCR0_AVX) == XCR0_SSE ||| XCR0_AVX) =
    ((m.xgetbv 0).testBit 1 && (m.xgetbv 0).testBit 2) := by
  have hm2 : XCR0_SSE ||| XCR0_AVX = 2 ^ 1 ||| 2 ^ 2 := by decide
  rw [hm2]
  apply bool_eq_of_iff
  rw [beq_iff_eq, land_mask2, testBit_mod32 _ 1 (by norm_num),
    testBit_mod32 _ 2 (by norm_num)]
  simp

/-- Full evaluation of `_intel_cpu_features` on the non-degenerate path
(selector-0 register A nonzero): every feature field as a bit of the
stubbed registers, `has_avx512f` constantly false, and the invoked
selectors `[0, 1]` plus `7` exactly when AVX is usable. -/
theorem intelCpuFeatures_eval (m : Machine) (pre : CPUFeatures)
    (h0 : ¬(m.cpuid 0).a % 2 ^ 32 = 0) :
    intelCpuFeatures m pre =
      ⟨{ has_neon := pre.has_neon
         has_sse2 := (m.cpuid 1).d.testBit 26
         has_sse3 := (m.cpuid 1).c.testBit 0
         has_ssse3 := (m.cpuid 1).c.testBit 9
         has_sse41 := (m.cpuid 1).c.testBit 19
         has_avx := avxUsable m
         has_avx2 := avxUsable m && (m.cpuid 7).b.testBit 5
         has_avx512f := false
         has_pclmul := (m.cpuid 1).c.testBit 1
         has_aesni := (m.cpuid 1).c.testBit 25
         has_rdrand := (m.cpuid 1).c.testBit 30 },
        0, if avxUsable m then [0, 1, 7] else [0, 1]⟩ := by
  unfold intelCpuFeatures avxUsable
  simp only [Machine.read, RegisterQuad.reduce, if_neg h0, mask3_eval, mask2_eval,
    ite_bool_and]
  rw [bne_land_const (m.cpuid 1).d CPUID_EDX_SSE2 26 (by decide) (by norm_num),
    bne_land_const (m.cpuid 1).c CPUID_ECX_SSE3 0 (by decide) (by norm_num),
    bne_land_const (m.cpuid 1).c CPUID_ECX_SSSE3 9 (by decide) (by norm_num),
    bne_land_const (m.cpuid 1).c CPUID_ECX_SSE41 19 (by decide) (by norm_num),
    bne_land_const (m.cpuid 1).c CPUID_ECX_PCLMUL 1 (by decide) (by norm_num),
    bne_land_const (m.cpuid 1).c CPUID_ECX_AESNI 25 (by decide) (by norm_num),
    bne_land_const (m.cpuid 1).c CPUID_ECX_RDRAND 30 (by decide) (by norm_num),
    bne_land_const (m.cpuid 7).b CPUID_EBX_AVX2 5 (by decide) (by norm_num)]
  split <;> rename_i h
  · simp [h]
  · rw [Bool.not_eq_true] at h
    simp [h]

/-- C2: on the non-degenerate path, the `has_avx` result of the
cross-platform decoder is true iff the selector-1 register C value has
the AVX bit (28), the XSAVE bit (26) and the OSXSAVE bit (27) set AND the
extended-control-register read returns a value with bit 1 (SSE state) and
bit 2 (AVX state) set; in particular it is false whenever the hardware
AVX bit is 0 and false when AVX is 1 but the OS-enablement bits are 0. -/
theorem avx_usable_iff (m : Machine) (pre : CPUFeatures)
    (h0 : (m.cpuid 0).a % 2 ^ 32 ≠ 0) :
    (intelCpuFeatures m pre).feats.has_avx = true ↔
      ((m.cpuid 1).c.testBit 28 = true ∧ (m.cpuid 1).c.testBit 26 = true ∧
        (m.cpuid 1).c.testBit 27 = true ∧ (m.xgetbv 0).testBit 1 = true ∧
        (m.xgetbv 0).testBit 2 = true) := by
  rw [intelCpuFeatures_eval m pre h0]
  simp [avxUsable, and_assoc]

/-- All-false initial feature struct. -/
def preFalse : CPUFeatures :=
  ⟨false, false, false, false, false, false, false, false, false, false,
    false⟩

/-- Stub machine: max standard selector 1, leaf-1 ECX grants
AVX+XSAVE+OSXSAVE, XCR0 grants the SSE and AVX state bits. -/
def mAvxOn : Machine :=
  ⟨fun l => if l = 0 then ⟨1, 0, 0, 0⟩
    else if l = 1 then ⟨0, 0, 0x1C000000, 0⟩ else ⟨0, 0, 0, 0⟩,
   fun _ => 6⟩

/-- Stub machine: max standard selector 1, leaf-1 registers all clear. -/
def mAvxOff : Machine :=
  ⟨fun l => if l = 0 then ⟨1, 0, 0, 0⟩ else ⟨0, 0, 0, 0⟩, fun _ => 0⟩

/-- Witness for C2: the end-to-end scenario of the spec (AVX, XSAVE,
OSXSAVE and both XCR0 state bits set) yields `has_avx = true`. -/
theorem avx_usable_iff_witness :
    (mAvxOn.cpuid 0).a % 2 ^ 32 ≠ 0 ∧
      (intelCpuFeatures mAvxOn preFalse).feats.has_avx = true :=
  ⟨by decide, (avx_usable_iff mAvxOn preFalse (by decide)).2
    ⟨by decide, by decide, by decide, by decide, by decide⟩⟩

/-- C3: on the non-degenerate path, whenever the decoder's `has_avx` is
false it reports `has_avx2` and `has_avx512f` false and never invokes the
identification instruction at selector 7. -/
theorem avx2_avx512_gating (m : Machine) (pre : CPUFeatures)
    (h0 : (m.cpuid 0).a % 2 ^ 32 ≠ 0)
    (havx : (intelCpuFeatures m pre).feats.has_avx = false) :
    (intelCpuFeatures m pre).feats.has_avx2 = false ∧
      (intelCpuFeatures m pre).feats.has_avx512f = false ∧
      7 ∉ (intelCpuFeatures m pre).calls := by
  rw [intelCpuFeatures_eval m pre h0] at havx ⊢
  simp only at havx
  simp [havx]

/-- Witness for C3: a stub with AVX not usable yields AVX2 and AVX-512F
false and no selector-7 call. -/
theorem avx2_avx512_gating_witness :
    (mAvxOff.cpuid 0).a % 2 ^ 32 ≠ 0 ∧
      (intelCpuFeatures mAvxOff preFalse).feats.has_avx = false ∧
      (intelCpuFeatures mAvxOff preFalse).feats.has_avx2 = false ∧
      (intelCpuFeatures mAvxOff preFalse).feats.has_avx512f = false ∧
      7 ∉ (intelCpuFeatures mAvxOff preFalse).calls :=
  ⟨by decide, by decide,
    (avx2_avx512_gating mAvxOff preFalse (by decide) (by decide)).1,
    (avx2_avx512_gating mAvxOff preFalse (by decide) (by decide)).2.1,
    (avx2_avx512_gating mAvxOff preFalse (by decide) (by decide)).2.2⟩

/-- Stub machine whose every query returns all-zero registers; in
particular selector-0 register A is 0. -/
def mZero : Machine := ⟨fun _ => ⟨0, 0, 0, 0⟩, fun _ => 0⟩

/-- One possible content of the uninitialized `CPUFeatures` local of
`print_cpu_features` (indeterminate stack memory with `has_sse2` set). -/
def preJunk : CPUFeatures :=
  ⟨false, true, false, false, false, false, false, false, false, false,
    false⟩

/-- C5 (code bug): when the selector-0 register A value is 0,
`_intel_cpu_features` returns the error code -1 without assigning any
feature field, and the caller's uninitialized struct passes through: the
undetermined `has_sse2` is reported with its indeterminate prior value
(true here) instead of false. -/
theorem decode_zero_keeps_indeterminate :
    (getCpuFeatures mZero preJunk).feats.has_sse2 = true ∧
      (getCpuFeatures mZero preJunk).ret = -1 := by decide

/-- Stub machine: selector-0 register A reports maximum 3 (below 7), yet
leaf 1 grants AVX+XSAVE+OSXSAVE, XCR0 grants both state bits, and leaf 7
register B has bit 5 (AVX2) set. -/
def mMax3Avx : Machine :=
  ⟨fun l => if l = 0 then ⟨3, 0, 0, 0⟩
    else if l = 1 then ⟨0, 0, 0x1C000000, 0⟩
    else if l = 7 then ⟨0, 0x20, 0, 0⟩ else ⟨0, 0, 0, 0⟩,
   fun _ => 6⟩

/-- Counterexample to C1: with reported maximum 3 (so selector 7 exceeds
the maximum) but AVX usable, the cross-platform decoder invokes the
identification instruction at selector 7 anyway and reports AVX2 true —
it never consults the maximum for the selector-7 query. -/
theorem decoder_ignores_max_counterexample :
    (mMax3Avx.cpuid 0).a = 3 ∧
      7 ∈ (intelCpuFeatures mMax3Avx preFalse).calls ∧
      (intelCpuFeatures mMax3Avx preFalse).feats.has_avx2 = true := by decide

/-- C1 (amended): the library's `CheckFeature` reports false and never
invokes the identification instruction at a selector exceeding the
processor-reported maximum of its range (standard and extended ranges
alike); the cross-platform decoder, by contrast, gates its selector-7
query only on AVX usability: on the non-degenerate path it invokes
selector 7 exactly when `has_avx` is true, regardless of the reported
maximum. -/
theorem selector_guard_amended (stub : Nat → Nat → RegisterQuad)
    (m : Machine) (pre : CPUFeatures) (fidS fidE : Int) (reg bit : Nat)
    (h0 : (m.cpuid 0).a % 2 ^ 32 ≠ 0)
    (hS : 0 < fidS) (hSmax : toSigned ((stub 0 0).a % 2 ^ 32) < fidS)
    (hE : fidE < 0)
    (hEmax : toSigned ((stub 0x80000000 0).a % 2 ^ 32) < fidE) :
    (CheckFeature stub fidS reg bit).support = false ∧
      (CheckFeature stub fidS reg bit).calls = [0] ∧
      (CheckFeature stub fidE reg bit).support = false ∧
      (CheckFeature stub fidE reg bit).calls = [0x80000000] ∧
      (7 ∈ (intelCpuFeatures m pre).calls ↔
        (intelCpuFeatures m pre).feats.has_avx = true) := by
  have hnS : ¬fidS ≤ toSigned ((stub 0 0).a % 2 ^ 32) := not_le.mpr hSmax
  have hnE : ¬fidE ≤ toSigned ((stub 0x80000000 0).a % 2 ^ 32) :=
    not_le.mpr hEmax
  have hnE0 : ¬0 < fidE := not_lt.mpr (le_of_lt hE)
  refine ⟨?_, ?_, ?_, ?_, ?_⟩
  · unfold CheckFeature
    rw [if_pos hS]
    dsimp only [RegisterQuad.reduce]
    rw [if_neg hnS]
  · unfold CheckFeature
    rw [if_pos hS]
    dsimp only [RegisterQuad.reduce]
    rw [if_neg hnS]
  · unfold CheckFeature
    rw [if_neg hnE0, if_pos hE]
    dsimp only [RegisterQuad.reduce]
    rw [if_neg hnE]
  · unfold CheckFeature
    rw [if_neg hnE0, if_pos hE]
    dsimp only [RegisterQuad.reduce]
    rw [if_neg hnE]
  · rw [intelCpuFeatures_eval m pre h0]
    cases havx : avxUsable m <;> simp [havx]

/-- Stub for the amended C1 guard: standard maximum 3, extended maximum
0x80000001. -/
def stubMax3Ext : Nat → Nat → RegisterQuad := fun sel _ =>
  if sel = 0 then ⟨3, 0, 0, 0⟩ else ⟨0x80000001, 0, 0, 0⟩

/-- Witness for the amended C1 at concrete inputs: standard selector 7
above maximum 3, extended selector pattern 0x80000005 above maximum
0x80000001. -/
theorem selector_guard_amended_witness :
    (mMax3Avx.cpuid 0).a % 2 ^ 32 ≠ 0 ∧ (0 : Int) < 7 ∧
      toSigned ((stubMax3Ext 0 0).a % 2 ^ 32) < 7 ∧
      (-2147483643 : Int) < 0 ∧
      toSigned ((stubMax3Ext 0x80000000 0).a % 2 ^ 32) < -2147483643 ∧
      ((CheckFeature stubMax3Ext 7 1 5).support = false ∧
        (CheckFeature stubMax3Ext 7 1 5).calls = [0] ∧
        (CheckFeature stubMax3Ext (-2147483643) 1 5).support = false ∧
        (CheckFeature stubMax3Ext (-2147483643) 1 5).calls = [0x80000000] ∧
        (7 ∈ (intelCpuFeatures mMax3Avx preFalse).calls ↔
          (intelCpuFeatures mMax3Avx preFalse).feats.has_avx = true)) :=
  ⟨by decide, by decide, by decide, by decide, by decide,
    selector_guard_amended stubMax3Ext mMax3Avx preFalse 7 (-2147483643) 1 5
      (by decide) (by decide) (by decide) (by decide) (by decide)⟩

theorem getD_range_map {α : Type} (n i : Nat) (f : Nat → α) (d : α) :
    ((List.range n).map f).getD i d = if i < n then f i else d := by
  by_cases h : i < n
  · rw [List.getD_eq_getElem?_getD, List.getElem?_map, List.getElem?_range h,
      if_pos h]
    rfl
  · rw [List.getD_eq_getElem?_getD, List.getElem?_map,
      List.getElem?_eq_none (by simpa using not_lt.mp h), if_neg h]
    rfl

theorem vendor_eval (stub : Nat → Nat → RegisterQuad)
    (h0 : (stub 0 0).a % 2 ^ 32 < 2 ^ 31) :
    (instructionSetInternal stub).vendor =
      cString (bytesLE ((stub 0 0).b % 2 ^ 32) ++ bytesLE ((stub 0 0).d % 2 ^ 32) ++
        bytesLE ((stub 0 0).c % 2 ^ 32)) := by
  have hcount : ((((stub 0 0).a % 2 ^ 32 : Nat) : Int) + 1).toNat =
      (stub 0 0).a % 2 ^ 32 + 1 := by omega
  unfold instructionSetInternal
  dsimp only [RegisterQuad.reduce]
  rw [toSigned, if_pos h0, hcount, getD_range_map, if_pos (Nat.succ_pos _)]

theorem f7ebx_eval (stub : Nat → Nat → RegisterQuad)
    (h0 : (stub 0 0).a % 2 ^ 32 < 2 ^ 31)
    (h7 : 7 ≤ (stub 0 0).a % 2 ^ 32) :
    (instructionSetInternal stub).f7ebx = (stub 7 0).b % 2 ^ 32 := by
  have hcount : ((((stub 0 0).a % 2 ^ 32 : Nat) : Int) + 1).toNat =
      (stub 0 0).a % 2 ^ 32 + 1 := by omega
  unfold instructionSetInternal
  dsimp only [RegisterQuad.reduce]
  rw [toSigned, if_pos h0,
    if_pos (by exact_mod_cast Int.ofNat_le.mpr h7 :
      (7 : Int) ≤ ((stub 0 0).a % 2 ^ 32 : Nat)),
    hcount, getD_range_map, if_pos (by omega)]

theorem f81ecx_eval (stub : Nat → Nat → RegisterQuad)
    (hExt : 0x80000001 ≤ (stub 0x80000000 0).a % 2 ^ 32) :
    (instructionSetInternal stub).f81ecx = (stub 0x80000001 0).c % 2 ^ 32 := by
  have hns : ¬(stub 0x80000000 0).a % 2 ^ 32 < 2 ^ 31 := by omega
  have hcount : ((((stub 0x80000000 0).a % 2 ^ 32 : Nat) : Int) - 2 ^ 32 + 2 ^ 31 + 1).toNat =
      (stub 0x80000000 0).a % 2 ^ 32 - 2 ^ 31 + 1 := by omega
  unfold instructionSetInternal
  dsimp only [RegisterQuad.reduce]
  rw [if_pos hExt, toSigned, if_neg hns, hcount, getD_range_map,
    if_pos (by omega)]
  norm_num

/-- C7: the 12-byte vendor string is assembled from the selector-0
registers in the fixed order B, then D, then C, each contributing four
little-endian bytes; for register values B=0x756e6547, D=0x49656e69,
C=0x6c65746e it equals "GenuineIntel". -/
theorem vendor_string_assembly (stub : Nat → Nat → RegisterQuad)
    (h0 : (stub 0 0).a % 2 ^ 32 < 2 ^ 31) :
    InstructionSet.Vendor (instructionSetInternal stub) =
      cString (bytesLE ((stub 0 0).b % 2 ^ 32) ++
        bytesLE ((stub 0 0).d % 2 ^ 32) ++ bytesLE ((stub 0 0).c % 2 ^ 32)) ∧
    ((stub 0 0).b = 0x756e6547 → (stub 0 0).d = 0x49656e69 →
      (stub 0 0).c = 0x6c65746e →
      InstructionSet.Vendor (instructionSetInternal stub) = "GenuineIntel") := by
  have hV : InstructionSet.Vendor (instructionSetInternal stub) =
      (instructionSetInternal stub).vendor := rfl
  refine ⟨hV ▸ vendor_eval stub h0, fun hb hd hc => ?_⟩
  rw [hV, vendor_eval stub h0, hb, hd, hc]
  decide

/-- Stub: a GenuineIntel machine with max standard selector 0x16 and
leaf-7 EBX bit 5 (AVX2) set. -/
def stubIntel : Nat → Nat → RegisterQuad := fun sel _ =>
  if sel = 0 then ⟨0x16, 0x756e6547, 0x6c65746e, 0x49656e69⟩
  else if sel = 7 then ⟨0, 0x20, 0, 0⟩
  else if sel = 0x80000000 then ⟨0x80000000, 0, 0, 0⟩
  else ⟨0, 0, 0, 0⟩

/-- Witness for C7 on the GenuineIntel register pattern. -/
theorem vendor_string_assembly_witness :
    (stubIntel 0 0).a % 2 ^ 32 < 2 ^ 31 ∧
      (InstructionSet.Vendor (instructionSetInternal stubIntel) =
        cString (bytesLE ((stubIntel 0 0).b % 2 ^ 32) ++
          bytesLE ((stubIntel 0 0).d % 2 ^ 32) ++
          bytesLE ((stubIntel 0 0).c % 2 ^ 32)) ∧
      ((stubIntel 0 0).b = 0x756e6547 → (stubIntel 0 0).d = 0x49656e69 →
        (stubIntel 0 0).c = 0x6c65746e →
        InstructionSet.Vendor (instructionSetInternal stubIntel) =
          "GenuineIntel")) :=
  ⟨by decide, vendor_string_assembly stubIntel (by decide)⟩

/-- C8: for every stub where the selector-0 register A value is 0x16 and
the selector-7 register B value has bit 5 set, both the `InstructionSet`
decoder and the library's `SupportAVX2` report AVX2 = true. -/
theorem avx2_end_to_end (stub : Nat → Nat → RegisterQuad)
    (h0 : (stub 0 0).a = 0x16) (h7 : (stub 7 0).b.testBit 5 = true) :
    InstructionSet.AVX2 (instructionSetInternal stub) = true ∧
      SupportAVX2 stub = true := by
  have ha : (stub 0 0).a % 2 ^ 32 = 0x16 := by rw [h0]; decide
  constructor
  · rw [InstructionSet.AVX2, f7ebx_eval stub (by omega) (by omega),
      testBit_mod32 _ 5 (by norm_num), h7]
  · have hsel : (7 : Int) ≤ toSigned ((stub 0 0).a % 2 ^ 32) := by
      rw [ha]; decide
    unfold SupportAVX2 CheckFeature
    rw [if_pos (by decide : (0 : Int) < 7)]
    dsimp only [RegisterQuad.reduce]
    rw [if_pos hsel]
    dsimp only [RegisterQuad.get]
    rw [if_neg (by decide), if_pos rfl]
    rw [show (1 <<< 5 : Nat) = 2 ^ 5 from by decide, bne_land_two_pow,
      testBit_mod32 _ 5 (by norm_num)]
    simpa using h7

/-- Witness for C8 on a concrete Intel stub. -/
theorem avx2_end_to_end_witness :
    (stubIntel 0 0).a = 0x16 ∧ (stubIntel 7 0).b.testBit 5 = true ∧
      (InstructionSet.AVX2 (instructionSetInternal stubIntel) = true ∧
        SupportAVX2 stubIntel = true) :=
  ⟨by decide, by decide, avx2_end_to_end stubIntel (by decide) (by decide)⟩

/-- `isAMD_` as set by the constructor: the else-if branch taken when the
vendor string is not "GenuineIntel" and equals "AuthenticAMD". -/
theorem isAMD_char (stub : Nat → Nat → RegisterQuad) :
    (instructionSetInternal stub).isAMD =
      (!((instructionSetInternal stub).vendor == "GenuineIntel") &&
        ((instructionSetInternal stub).vendor == "AuthenticAMD")) := rfl

/-- `isIntel_` as set by the constructor. -/
theorem isIntel_char (stub : Nat → Nat → RegisterQuad) :
    (instructionSetInternal stub).isIntel =
      ((instructionSetInternal stub).vendor == "GenuineIntel") := rfl

/-- C6: vendor-gated features: the AMD-only ABM, SSE4a, XOP, TBM are
false whenever the vendor string is not "AuthenticAMD", the Intel-only
HLE, RTM, LZCNT are false whenever it is not "GenuineIntel", and when the
vendor matches each reports exactly the backing register bit (selector
0x80000001 register C for ABM/SSE4a/XOP/TBM/LZCNT, selector 7 register B
for HLE/RTM). -/
theorem vendor_gated_features (stub : Nat → Nat → RegisterQuad)
    (h0 : (stub 0 0).a % 2 ^ 32 < 2 ^ 31)
    (h7 : 7 ≤ (stub 0 0).a % 2 ^ 32)
    (hExt : 0x80000001 ≤ (stub 0x80000000 0).a % 2 ^ 32) :
    (InstructionSet.Vendor (instructionSetInternal stub) ≠ "AuthenticAMD" →
      InstructionSet.ABM (instructionSetInternal stub) = false ∧
      InstructionSet.SSE4a (instructionSetInternal stub) = false ∧
      InstructionSet.XOP (instructionSetInternal stub) = false ∧
      InstructionSet.TBM (instructionSetInternal stub) = false) ∧
    (InstructionSet.Vendor (instructionSetInternal stub) ≠ "GenuineIntel" →
      InstructionSet.HLE (instructionSetInternal stub) = false ∧
      InstructionSet.RTM (instructionSetInternal stub) = false ∧
      InstructionSet.LZCNT (instructionSetInternal stub) = false) ∧
    (InstructionSet.Vendor (instructionSetInternal stub) = "AuthenticAMD" →
      InstructionSet.ABM (instructionSetInternal stub) =
        (stub 0x80000001 0).c.testBit 5 ∧
      InstructionSet.SSE4a (instructionSetInternal stub) =
        (stub 0x80000001 0).c.testBit 6 ∧
      InstructionSet.XOP (instructionSetInternal stub) =
        (stub 0x80000001 0).c.testBit 11 ∧
      InstructionSet.TBM (instructionSetInternal stub) =
        (stub 0x80000001 0).c.testBit 21) ∧
    (InstructionSet.Vendor (instructionSetInternal stub) = "GenuineIntel" →
      InstructionSet.HLE (instructionSetInternal stub) =
        (stub 7 0).b.testBit 4 ∧
      InstructionSet.RTM (instructionSetInternal stub) =
        (stub 7 0).b.testBit 11 ∧
      InstructionSet.LZCNT (instructionSetInternal stub) =
        (stub 0x80000001 0).c.testBit 5) := by
  have hV : InstructionSet.Vendor (instructionSetInternal stub) =
      (instructionSetInternal stub).vendor := rfl
  have h81 := f81ecx_eval stub hExt
  have h7b := f7ebx_eval stub h0 h7
  refine ⟨fun hne => ?_, fun hne => ?_, fun heq => ?_, fun heq => ?_⟩
  · rw [hV] at hne
    have hb : ((instructionSetInternal stub).vendor == "AuthenticAMD") = false :=
      beq_eq_false_iff_ne.mpr hne
    simp [InstructionSet.ABM, InstructionSet.SSE4a, InstructionSet.XOP,
      InstructionSet.TBM, isAMD_char, hb]
  · rw [hV] at hne
    have hb : ((instructionSetInternal stub).vendor == "GenuineIntel") = false :=
      beq_eq_false_iff_ne.mpr hne
    simp [InstructionSet.HLE, InstructionSet.RTM, InstructionSet.LZCNT,
      isIntel_char, hb]
  · rw [hV] at heq
    have hAMD : (instructionSetInternal stub).isAMD = true := by
      rw [isAMD_char, heq]
      decide
    simp only [InstructionSet.ABM, InstructionSet.SSE4a, InstructionSet.XOP,
      InstructionSet.TBM, hAMD, h81, Bool.true_and]
    rw [testBit_mod32 _ 5 (by norm_num), testBit_mod32 _ 6 (by norm_num),
      testBit_mod32 _ 11 (by norm_num), testBit_mod32 _ 21 (by norm_num)]
    exact ⟨rfl, rfl, rfl, rfl⟩
  · rw [hV] at heq
    have hIntel : (instructionSetInternal stub).isIntel = true := by
      rw [isIntel_char, heq]
      decide
    simp only [InstructionSet.HLE, InstructionSet.RTM, InstructionSet.LZCNT,
      hIntel, h81, h7b, Bool.true_and]
    rw [testBit_mod32 _ 4 (by norm_num), testBit_mod32 _ 11 (by norm_num),
      testBit_mod32 _ 5 (by norm_num)]
    exact ⟨rfl, rfl, rfl⟩

/-- Stub: an AuthenticAMD machine with max standard selector 7, extended
maximum 0x80000001, and the 0x80000001 register C bit 5 (ABM) set. -/
def stubAMD : Nat → Nat → RegisterQuad := fun sel _ =>
  if sel = 0 then ⟨7, 0x68747541, 0x444d4163, 0x69746e65⟩
  else if sel = 0x80000000 then ⟨0x80000001, 0, 0, 0⟩
  else if sel = 0x80000001 then ⟨0, 0, 0x20, 0⟩
  else ⟨0, 0, 0, 0⟩

/-- Witness for C6: the AMD stub satisfies the range hypotheses and the
gating conclusions. -/
theorem vendor_gated_features_witness :
    (stubAMD 0 0).a % 2 ^ 32 < 2 ^ 31 ∧ 7 ≤ (stubAMD 0 0).a % 2 ^ 32 ∧
      0x80000001 ≤ (stubAMD 0x80000000 0).a % 2 ^ 32 ∧
      (InstructionSet.Vendor (instructionSetInternal stubAMD) =
        "AuthenticAMD" →
        InstructionSet.ABM (instructionSetInternal stubAMD) =
          (stubAMD 0x80000001 0).c.testBit 5 ∧
        InstructionSet.SSE4a (instructionSetInternal stubAMD) =
          (stubAMD 0x80000001 0).c.testBit 6 ∧
        InstructionSet.XOP (instructionSetInternal stubAMD) =
          (stubAMD 0x80000001 0).c.testBit 11 ∧
        InstructionSet.TBM (instructionSetInternal stubAMD) =
          (stubAMD 0x80000001 0).c.testBit 21) ∧
      (InstructionSet.Vendor (instructionSetInternal stubAMD) ≠
        "GenuineIntel" →
        InstructionSet.HLE (instructionSetInternal stubAMD) = false ∧
        InstructionSet.RTM (instructionSetInternal stubAMD) = false ∧
        InstructionSet.LZCNT (instructionSetInternal stubAMD) = false) :=
  ⟨by decide, by decide, by decide,
    (vendor_gated_features stubAMD (by decide) (by decide) (by decide)).2.2.1,
    (vendor_gated_features stubAMD (by decide) (by decide) (by decide)).2.1⟩
